import Mathlib

/-!
Shallow embedding of the hr-Nexus session middleware (`middleware` in the
unnamed Next.js middleware file) and the KPI fetch hook
(`src/lib/hooks/useOptimizedKPIData.ts`).

JavaScript dynamic values are modelled by `JSValue`; JS numbers are modelled
by rationals (every numeric literal appearing in this code base is exactly
representable). `Number(x) || 0` coercion, truthiness, and `new Date(x)`
comparison semantics are embedded explicitly. Cookie / localStorage blobs are
modelled after decoding: `DecodedBlob.invalid` stands for any raw string on
which `JSON.parse` (after `atob` for cookies) throws, `DecodedBlob.valid sd`
for one that decodes to an object whose relevant properties are those of
`sd` (a property that is absent reads as `undefined`, exactly as in JS).
-/

/-- A JavaScript value as far as this code base observes one: `null`,
`undefined`, strings, booleans, finite numbers (as rationals) and `NaN`. -/
inductive JSValue where
  | null
  | undefined
  | str (s : String)
  | bool (b : Bool)
  | num (q : ℚ)
  | nan
deriving DecidableEq

/-- JS truthiness: `false`, `0`, `NaN`, `""`, `null`, `undefined` are falsy. -/
def truthy : JSValue → Bool
  | .null => false
  | .undefined => false
  | .str s => !(s == "")
  | .bool b => b
  | .num q => !(q == 0)
  | .nan => false

/-- Digit run of an exact given length, as a `Nat`. -/
def toDigitsNat (s : String) (len : Nat) : Option Nat :=
  if s.length == len && s.toList.all (fun c => c.isDigit) then
    some (s.toList.foldl (fun a c => a * 10 + (c.toNat - 48)) 0)
  else none

/-- Digit run of any positive length, as a `Nat`. -/
def digitsToNat (s : String) : Option Nat :=
  if s.length ≥ 1 && s.toList.all (fun c => c.isDigit) then
    some (s.toList.foldl (fun a c => a * 10 + (c.toNat - 48)) 0)
  else none

/-- Unsigned decimal numeral, optionally with a fractional part
(`"42"`, `"12.5"`, `".5"`, `"5."`). -/
def parseUnsignedDec (s : String) : Option ℚ :=
  match s.splitOn "." with
  | [a] => (digitsToNat a).map (fun n => (n : ℚ))
  | [a, b] =>
    if a == "" then
      (digitsToNat b).map (fun m => (m : ℚ) / (10 : ℚ) ^ b.length)
    else if b == "" then
      (digitsToNat a).map (fun n => (n : ℚ))
    else
      match digitsToNat a, digitsToNat b with
      | some n, some m => some ((n : ℚ) + (m : ℚ) / (10 : ℚ) ^ b.length)
      | _, _ => none
  | _ => none

/-- JS `ToNumber` on a string, restricted to plain decimal numerals with an
optional sign (no exponent / hex forms, none of which occur in the data of
this code base): trimmed; empty is `0`; otherwise parse or `NaN` (`none`). -/
def strToNumber (s : String) : Option ℚ :=
  let t := s.trim
  if t == "" then some 0
  else
    match t.toList with
    | '-' :: rest => (parseUnsignedDec (String.mk rest)).map (fun q => -q)
    | '+' :: rest => parseUnsignedDec (String.mk rest)
    | _ => parseUnsignedDec t

/-- JS `Number(x)`: `none` models `NaN`. -/
def toNumber : JSValue → Option ℚ
  | .null => some 0
  | .undefined => none
  | .str s => strToNumber s
  | .bool b => some (if b then 1 else 0)
  | .num q => some q
  | .nan => none

/-- `Number(x) || 0` as used throughout the KPI transform: `NaN` and `0`
(the falsy numbers) collapse to `0`, everything else is kept. -/
def numOr0 (v : JSValue) : ℚ :=
  match toNumber v with
  | none => 0
  | some q => if q == 0 then 0 else q

/-- Days since the Unix epoch of a civil date (proleptic Gregorian). -/
def daysFromCivil (y : Int) (m d : Nat) : Int :=
  let yy : Int := if m ≤ 2 then y - 1 else y
  let era : Int := (if 0 ≤ yy then yy else yy - 399) / 400
  let yoe : Int := yy - era * 400
  let mp : Int := ((m : Int) + 9) % 12
  let doy : Int := (153 * mp + 2) / 5 + (d : Int) - 1
  let doe : Int := yoe * 365 + yoe / 4 - yoe / 100 + doy
  era * 146097 + doe - 719468

/-- Epoch milliseconds of a civil UTC datetime, with JS-style field
validation. -/
def civilToMillis (y mo d h mi se ms : Nat) : Option ℚ :=
  if 1 ≤ mo && mo ≤ 12 && 1 ≤ d && d ≤ 31 && h ≤ 23 && mi ≤ 59 && se ≤ 59 then
    some (((daysFromCivil (y : Int) mo d) * 86400000
      + ((h : Int) * 3600 + (mi : Int) * 60 + (se : Int)) * 1000 + (ms : Int) : Int) : ℚ)
  else none

/-- `"YYYY-MM-DD"` date component. -/
def parseDatePart (s : String) : Option (Nat × Nat × Nat) :=
  match s.splitOn "-" with
  | [y, mo, d] => do
    let yv ← toDigitsNat y 4
    let mov ← toDigitsNat mo 2
    let dv ← toDigitsNat d 2
    pure (yv, mov, dv)
  | _ => none

/-- `"HH:MM:SS[.mmm]Z"` time component. -/
def parseTimePart (s : String) : Option (Nat × Nat × Nat × Nat) :=
  if s.endsWith "Z" then
    match (s.dropRight 1).splitOn ":" with
    | [hh, mm, rest] => do
      let h ← toDigitsNat hh 2
      let mi ← toDigitsNat mm 2
      match rest.splitOn "." with
      | [ss] => do
        let se ← toDigitsNat ss 2
        pure (h, mi, se, 0)
      | [ss, ms] => do
        let se ← toDigitsNat ss 2
        let msv ← toDigitsNat ms 3
        pure (h, mi, se, msv)
      | _ => none
    | _ => none
  else none

/-- JS `Date` string parsing, restricted to the ISO-8601 UTC forms this code
base produces (`Date.prototype.toISOString` output and date-only
`"YYYY-MM-DD"`); anything else is an Invalid Date (`none`). -/
def parseDateStr (s : String) : Option ℚ :=
  match s.splitOn "T" with
  | [d] => (parseDatePart d).bind (fun p => civilToMillis p.1 p.2.1 p.2.2 0 0 0 0)
  | [d, t] =>
    (parseDatePart d).bind (fun p =>
      (parseTimePart t).bind (fun q =>
        civilToMillis p.1 p.2.1 p.2.2 q.1 q.2.1 q.2.2.1 q.2.2.2))
  | _ => none

/-- `new Date(v)` time value in epoch milliseconds; `none` is Invalid Date. -/
def jsDate : JSValue → Option ℚ
  | .null => some 0
  | .undefined => none
  | .str s => parseDateStr s
  | .bool b => some (if b then 1 else 0)
  | .num q => some q
  | .nan => none

/-- `new Date(v) < new Date()` with current time `now` (epoch ms): an Invalid
Date compares `NaN`, and every comparison against `NaN` is `false`. -/
def dateLtNow (v : JSValue) (now : ℚ) : Bool :=
  match jsDate v with
  | none => false
  | some t => decide (t < now)

/-- The properties of a stored session object that this code base reads.
A property the JSON object lacks reads as `undefined`. -/
structure SessionData where
  company_id : JSValue := .undefined
  access_token : JSValue := .undefined
  expires_at : JSValue := .undefined
deriving DecidableEq

/-- Result of decoding a stored blob: `invalid` models any raw value on which
`JSON.parse(...)` (after `atob(...)` for the cookie) throws — not valid
base64 or not valid JSON; `valid sd` models a successful decode. -/
inductive DecodedBlob where
  | invalid
  | valid (sd : SessionData)
deriving DecidableEq

/-! ### Middleware (route classifier)

Transcribed from `middleware` in the Next.js middleware source file. The
response is either a plain pass-through (`next`), a pass-through with the
two identity headers set (`nextWithHeaders`), or a redirect to a login URL,
optionally clearing a named cookie (`redirect`). -/

/-- What the middleware returns for one request. -/
inductive MWResponse where
  | next
  | nextWithHeaders (companyId accessToken : JSValue)
  | redirect (url : String) (clearCookie : Option String)
deriving DecidableEq

/-- `publicPaths` from the source. -/
def publicPaths : List String :=
  ["/", "/login", "/demo", "/api/demo", "/favicon.ico", "/_next", "/api/health"]

/-- `adminPaths` from the source. -/
def adminPaths : List String := ["/admin"]

/-- `protectedPaths` from the source. -/
def protectedPaths : List String :=
  ["/dashboard", "/import", "/employees", "/settings", "/api/import"]

/-- `publicPaths.some(p => path === p || path.startsWith(p))`. -/
def isPublicPath (path : String) : Bool :=
  publicPaths.any (fun p => path == p || path.startsWith p)

/-- `adminPaths.some(p => path.startsWith(p))`. -/
def isAdminPath (path : String) : Bool :=
  adminPaths.any (fun p => path.startsWith p)

/-- `protectedPaths.some(p => path.startsWith(p))`. -/
def isProtectedPath (path : String) : Bool :=
  protectedPaths.any (fun p => path.startsWith p)

/-- The admin branch of the middleware (source lines 43-60): missing cookie
or decode failure redirect to `/admin/login` (decode failure without
clearing); an expired session redirects and clears `admin_session`;
otherwise pass through. No field-completeness check is performed. -/
def adminGate (cookie : Option DecodedBlob) (now : ℚ) : MWResponse :=
  match cookie with
  | none => .redirect "/admin/login" none
  | some .invalid => .redirect "/admin/login" none
  | some (.valid sd) =>
    if dateLtNow sd.expires_at now then
      .redirect "/admin/login" (some "admin_session")
    else
      .next

/-- The protected (company) branch of the middleware (source lines 69-111):
missing cookie redirects to `/login`; decode failure, expiry, or a falsy
`company_id` / `access_token` redirect to `/login` clearing
`company_session`; otherwise pass through with the `x-company-id` and
`x-access-token` headers set from the session. -/
def companyGate (cookie : Option DecodedBlob) (now : ℚ) : MWResponse :=
  match cookie with
  | none => .redirect "/login" none
  | some .invalid => .redirect "/login" (some "company_session")
  | some (.valid sd) =>
    if dateLtNow sd.expires_at now then
      .redirect "/login" (some "company_session")
    else if !truthy sd.company_id || !truthy sd.access_token then
      .redirect "/login" (some "company_session")
    else
      .nextWithHeaders sd.company_id sd.access_token

/-- The middleware: public check first (pass through), then the admin branch
(skipped for `/admin/login` itself), then the protected branch, then
default-allow. -/
def middleware (path : String) (adminCookie companyCookie : Option DecodedBlob)
    (now : ℚ) : MWResponse :=
  if isPublicPath path then .next
  else if isAdminPath path && !(path == "/admin/login") then adminGate adminCookie now
  else if isProtectedPath path then companyGate companyCookie now
  else .next

/-! ### KPI fetch hook (`useOptimizedKPIData.ts`)

The asynchronous environment of the hook is made explicit: the stored session,
the current time, the settled outcome of the `validate_access_token` RPC,
the settled outcomes of the three `maybeSingle()` partition reads, and the
settled outcome of the activity-update write. `fetchOptimizedKPIs` is then
a pure function from that environment (plus the prior hook state it would
leave untouched) to the final hook state. -/

/-- One row returned by `validate_access_token`; a missing `is_valid`
property reads as `undefined`. -/
structure ValidationRow where
  is_valid : JSValue := .undefined
deriving DecidableEq

/-- Settled outcome of the `supabase.rpc("validate_access_token", ...)`
call: it resolves with a `data` payload that may be null/undefined (`ok
none`) or a list of rows, or it rejects (`threw`). -/
inductive RpcOutcome where
  | ok (rows : Option (List ValidationRow))
  | threw
deriving DecidableEq

/-- The environment `validateSession` runs in: the decoded
`localStorage.getItem("company_session")` value (`none` when the key is
absent), the current time, and the RPC outcome. -/
structure SessionEnv where
  storedSession : Option DecodedBlob
  now : ℚ
  rpc : RpcOutcome
deriving DecidableEq

/-- What one run of `validateSession` does: its boolean verdict, the
localStorage entry it leaves behind, and whether it cleared the
`company_session` cookie. -/
structure ValidateOutcome where
  verdict : Bool
  storeAfter : Option DecodedBlob
  cookieCleared : Bool
deriving DecidableEq

/-- `validationResult?.[0]?.is_valid || false` with the rejection case folded
in (a rejected RPC is caught by the surrounding try and yields `false`). -/
def rpcVerdict : RpcOutcome → Bool
  | .threw => false
  | .ok none => false
  | .ok (some []) => false
  | .ok (some (r :: _)) => truthy r.is_valid

/-- `validateSession` (hook source lines 51-73): no stored session, or one
that fails to parse, yields `false` with no cleanup; an expired one is
removed from localStorage, the cookie is cleared, and `false` is returned;
otherwise the verdict is that of the RPC. -/
def validateSession (env : SessionEnv) : ValidateOutcome :=
  match env.storedSession with
  | none => ⟨false, none, false⟩
  | some .invalid => ⟨false, some .invalid, false⟩
  | some (.valid sd) =>
    if dateLtNow sd.expires_at env.now then
      ⟨false, none, true⟩
    else
      ⟨rpcVerdict env.rpc, some (.valid sd), false⟩

/-- `snapshots_workforce` row, selected columns. -/
structure WorkforceRow where
  effectif_fin_mois : JSValue := .undefined
  etp_fin_mois : JSValue := .undefined
  nb_entrees : JSValue := .undefined
  nb_sorties : JSValue := .undefined
  taux_turnover : JSValue := .undefined
  pct_cdi : JSValue := .undefined
  age_moyen : JSValue := .undefined
  anciennete_moyenne_mois : JSValue := .undefined
  pct_hommes : JSValue := .undefined
  pct_femmes : JSValue := .undefined
deriving DecidableEq

/-- `snapshots_financials` row, selected columns. -/
structure FinancialRow where
  masse_salariale_brute : JSValue := .undefined
  cout_total_employeur : JSValue := .undefined
  salaire_base_moyen : JSValue := .undefined
  cout_moyen_par_fte : JSValue := .undefined
  part_variable : JSValue := .undefined
  taux_charges : JSValue := .undefined
deriving DecidableEq

/-- `snapshots_absences` row, selected columns. -/
structure AbsenceRow where
  taux_absenteisme : JSValue := .undefined
  nb_jours_absence : JSValue := .undefined
  nb_absences_total : JSValue := .undefined
  duree_moyenne_absence : JSValue := .undefined
  nb_salaries_absents : JSValue := .undefined
  nb_jours_maladie : JSValue := .undefined
deriving DecidableEq

/-- `WorkforceKPIs` interface. -/
structure WorkforceKPIs where
  etpTotal : ℚ
  headcountActif : ℚ
  nbEntrees : ℚ
  nbSorties : ℚ
  tauxTurnover : ℚ
  pctCDI : ℚ
  ageMoyen : ℚ
  ancienneteMoyenne : ℚ
  pctHommes : ℚ
  pctFemmes : ℚ
deriving DecidableEq

/-- `PayrollKPIs` interface. -/
structure PayrollKPIs where
  masseBrute : ℚ
  coutTotal : ℚ
  salaireMoyen : ℚ
  coutMoyenFTE : ℚ
  partVariable : ℚ
  tauxCharges : ℚ
deriving DecidableEq

/-- `AbsenceKPIs` interface. -/
structure AbsenceKPIs where
  tauxAbsenteisme : ℚ
  nbJoursAbsence : ℚ
  nbAbsencesTotal : ℚ
  dureeMoyenne : ℚ
  nbSalariesAbsents : ℚ
  nbJoursMaladie : ℚ
deriving DecidableEq

/-- `OptimizedKPIData` interface: each partition nullable. -/
structure OptimizedKPIData where
  workforce : Option WorkforceKPIs
  financials : Option PayrollKPIs
  absences : Option AbsenceKPIs
deriving DecidableEq

/-- Workforce transform (hook source lines 149-160), `Number(...) || 0` on
every field. -/
def transformWorkforce (r : WorkforceRow) : WorkforceKPIs :=
  { etpTotal := numOr0 r.etp_fin_mois
    headcountActif := numOr0 r.effectif_fin_mois
    nbEntrees := numOr0 r.nb_entrees
    nbSorties := numOr0 r.nb_sorties
    tauxTurnover := numOr0 r.taux_turnover
    pctCDI := numOr0 r.pct_cdi
    ageMoyen := numOr0 r.age_moyen
    ancienneteMoyenne := numOr0 r.anciennete_moyenne_mois
    pctHommes := numOr0 r.pct_hommes
    pctFemmes := numOr0 r.pct_femmes }

/-- Financial transform (hook source lines 162-169). -/
def transformFinancial (r : FinancialRow) : PayrollKPIs :=
  { masseBrute := numOr0 r.masse_salariale_brute
    coutTotal := numOr0 r.cout_total_employeur
    salaireMoyen := numOr0 r.salaire_base_moyen
    coutMoyenFTE := numOr0 r.cout_moyen_par_fte
    partVariable := numOr0 r.part_variable
    tauxCharges := numOr0 r.taux_charges }

/-- Absence transform (hook source lines 171-178). -/
def transformAbsence (r : AbsenceRow) : AbsenceKPIs :=
  { tauxAbsenteisme := numOr0 r.taux_absenteisme
    nbJoursAbsence := numOr0 r.nb_jours_absence
    nbAbsencesTotal := numOr0 r.nb_absences_total
    dureeMoyenne := numOr0 r.duree_moyenne_absence
    nbSalariesAbsents := numOr0 r.nb_salaries_absents
    nbJoursMaladie := numOr0 r.nb_jours_maladie }

/-- Settled outcome of the `entreprises` activity-update write. The supabase
builder normally resolves — with or without an in-band `{ error }` payload —
and `.then(() => {})` discards the resolved value either way; a rejected
promise (carrying an `Error` with the given message) propagates through the
`await` into the surrounding catch. -/
inductive ActivityOutcome where
  | resolvedOk
  | resolvedErr (msg : String)
  | rejected (msg : String)
deriving DecidableEq

/-- Whether the activity-update promise rejected. -/
def isRejectedActivity : ActivityOutcome → Bool
  | .rejected _ => true
  | _ => false

/-- Full environment of one `fetchOptimizedKPIs` run: the session
environment plus the settled outcomes of the three partition reads
(`Except.error m` models a resolved `{ error }` with message `m`; `ok none`
models `maybeSingle()` finding no row) and of the activity update. -/
structure FetchEnv where
  session : SessionEnv
  workforceRes : Except String (Option WorkforceRow)
  financialRes : Except String (Option FinancialRow)
  absenceRes : Except String (Option AbsenceRow)
  activity : ActivityOutcome

/-- The hook state and effects after one `fetchOptimizedKPIs` run: the
`data`, `error`, `loading` states, where `window.location.href` was pointed
(if anywhere), whether the three partition reads were issued at all, and the
session storage left behind. -/
structure FetchResult where
  data : Option OptimizedKPIData
  error : Option String
  loading : Bool
  navigatedTo : Option String
  readsIssued : Bool
  storeAfter : Option DecodedBlob
  cookieCleared : Bool
deriving DecidableEq

/-- `fetchOptimizedKPIs` (hook source lines 75-199) as a pure function of
its environment and the prior `data` / `error` state. An empty
establishment id or period short-circuits (`setLoading(false)` only).
Otherwise the session is validated (failure: error `"Session expirée"`,
navigation to `/login`, no reads). The three reads are then issued in
parallel and their errors checked in order workforce, financial, absence
(first error wins, prefixed with the partition name). On success the
transformed data is stored; the activity step re-reads the stored session
— in this branch the store still holds the validated session — and, when
`company_id` is truthy, awaits the update: a rejected update promise lands
in the catch and sets the error. -/
def fetchOptimizedKPIs (establishmentId period : String) (env : FetchEnv)
    (priorData : Option OptimizedKPIData) (priorError : Option String) : FetchResult :=
  if establishmentId == "" || period == "" then
    ⟨priorData, priorError, false, none, false, env.session.storedSession, false⟩
  else
    let v := validateSession env.session
    if !v.verdict then
      ⟨priorData, some "Session expirée", false, some "/login", false,
        v.storeAfter, v.cookieCleared⟩
    else
      match env.workforceRes with
      | .error m =>
        ⟨priorData, some ("Workforce data: " ++ m), false, none, true,
          v.storeAfter, v.cookieCleared⟩
      | .ok wRow =>
        match env.financialRes with
        | .error m =>
          ⟨priorData, some ("Financial data: " ++ m), false, none, true,
            v.storeAfter, v.cookieCleared⟩
        | .ok fRow =>
          match env.absenceRes with
          | .error m =>
            ⟨priorData, some ("Absence data: " ++ m), false, none, true,
              v.storeAfter, v.cookieCleared⟩
          | .ok aRow =>
            let td : OptimizedKPIData :=
              ⟨wRow.map transformWorkforce, fRow.map transformFinancial,
                aRow.map transformAbsence⟩
            -- JSON.parse of the stored session with the empty-object
            -- default: with a true verdict the store still holds the
            -- validated session; the fallback arm models the empty-object
            -- default (unreachable here, see `validateSession`).
            let sd : SessionData :=
              match v.storeAfter with
              | some (.valid s) => s
              | _ => {}
            if truthy sd.company_id then
              match env.activity with
              | .rejected m =>
                ⟨some td, some m, false, none, true, v.storeAfter, v.cookieCleared⟩
              | _ =>
                ⟨some td, none, false, none, true, v.storeAfter, v.cookieCleared⟩
            else
              ⟨some td, none, false, none, true, v.storeAfter, v.cookieCleared⟩

/-- The `isValid: data !== null` field returned by the hook. -/
def returnedIsValid (r : FetchResult) : Bool :=
  r.data.isSome

/-! ### Shared concrete instances -/

/-- A well-formed, unexpired company session. -/
def validCompanySession : SessionData :=
  ⟨.str "c1", .str "t1", .num 9999999999999⟩

/-- A decoded session object with no properties at all. -/
def emptySession : SessionData := {}

/-- A session environment whose stored session is valid and whose
token-validation RPC resolves with one row carrying `is_valid: true`. -/
def okSessionEnv : SessionEnv :=
  ⟨some (.valid validCompanySession), 0, .ok (some [⟨.bool true⟩])⟩

/-! ### Claims -/

/-- C1 (code bug): on the protected path `/dashboard` with no
`company_session` cookie the middleware passes the request straight through
instead of redirecting to `/login`. `"/"` is an entry of `publicPaths` and
matching is by `startsWith`, so every request path is classified public and
the protected branch — which, as the last conjunct shows, would have
redirected — is unreachable. -/
theorem c1_protected_path_without_session_passes_through :
    middleware "/dashboard" none none 0 = MWResponse.next ∧
    isProtectedPath "/dashboard" = true ∧
    companyGate none 0 = MWResponse.redirect "/login" none := by
  with_unfolding_all exact ⟨rfl, rfl, rfl⟩

/-- C2: every request whose path equals or starts with a public prefix is
passed through unmodified, whatever the cookie state — so no session data is
ever consulted — even when the path also matches a protected or admin
entry. -/
theorem c2_public_wins_passes_through (path : String)
    (ac cc : Option DecodedBlob) (now : ℚ) (h : isPublicPath path = true) :
    middleware path ac cc now = MWResponse.next := by
  simp [middleware, h]

/-- C2 witness: `/dashboard` matches both a public and a protected entry and
passes through even with malformed cookies attached. -/
theorem c2_witness :
    isPublicPath "/dashboard" = true ∧ isProtectedPath "/dashboard" = true ∧
    middleware "/dashboard" (some .invalid) (some .invalid) 0 = MWResponse.next := by
  have hpub : isPublicPath "/dashboard" = true := by with_unfolding_all rfl
  have hpro : isProtectedPath "/dashboard" = true := by with_unfolding_all rfl
  exact ⟨hpub, hpro,
    c2_public_wins_passes_through "/dashboard" (some .invalid) (some .invalid) 0 hpub⟩

/-- C3 (code bug): a request to `/dashboard` carrying a well-formed,
unexpired company session with both `company_id` and `access_token` present
is forwarded as a plain pass-through with no identity headers: the public
check intercepts it first. The second conjunct shows the protected branch
itself would have attached exactly the session values. -/
theorem c3_identity_headers_never_attached :
    middleware "/dashboard" none (some (.valid validCompanySession)) 0 = MWResponse.next ∧
    companyGate (some (.valid validCompanySession)) 0 =
      MWResponse.nextWithHeaders (.str "c1") (.str "t1") := by
  with_unfolding_all exact ⟨rfl, rfl⟩

/-- C4: a session whose `expires_at` parses to a time strictly before `now`
makes the local check return invalid, remove the localStorage entry, and
clear the cookie; the middleware company branch likewise redirects to
`/login` clearing the `company_session` cookie. -/
theorem c4_expired_session_invalid_and_cleared (sd : SessionData) (now t : ℚ)
    (rpc : RpcOutcome) (hp : jsDate sd.expires_at = some t) (hlt : t < now) :
    validateSession ⟨some (.valid sd), now, rpc⟩ = ⟨false, none, true⟩ ∧
    companyGate (some (.valid sd)) now =
      MWResponse.redirect "/login" (some "company_session") := by
  have hd : dateLtNow sd.expires_at now = true := by
    simp only [dateLtNow, hp]
    exact decide_eq_true hlt
  exact ⟨by simp [validateSession, hd], by simp [companyGate, hd]⟩

/-- C4 witness: a session expired at epoch millisecond `-1`, checked at
time `0`. -/
theorem c4_witness :
    validateSession ⟨some (.valid ⟨.undefined, .undefined, .num (-1)⟩), 0, .threw⟩ =
      ⟨false, none, true⟩ ∧
    companyGate (some (.valid ⟨.undefined, .undefined, .num (-1)⟩)) 0 =
      MWResponse.redirect "/login" (some "company_session") :=
  c4_expired_session_invalid_and_cleared ⟨.undefined, .undefined, .num (-1)⟩ 0 (-1)
    .threw rfl (by decide)

/-- C5 (code bug): a malformed cookie on an admin or protected path does not
produce the role-appropriate login redirect: the request passes straight
through, because every path is classified public first. The last two
conjuncts show both gate branches would have redirected (the admin branch
without clearing, the company branch clearing the cookie). The middleware is
a total function of its inputs, so no input throws. -/
theorem c5_malformed_cookie_passes_through :
    middleware "/admin/panel" (some .invalid) none 0 = MWResponse.next ∧
    middleware "/dashboard" none (some .invalid) 0 = MWResponse.next ∧
    adminGate (some .invalid) 0 = MWResponse.redirect "/admin/login" none ∧
    companyGate (some .invalid) 0 =
      MWResponse.redirect "/login" (some "company_session") := by
  with_unfolding_all exact ⟨rfl, rfl, rfl, rfl⟩

/-- C6: whenever the remote validation verdict is false — stored session
missing, expired, RPC rejected, no rows, or `is_valid` falsy — the fetch
sets the error `"Session expirée"`, leaves `data` null, navigates to
`/login`, and issues none of the three partition reads. -/
theorem c6_invalid_session_aborts_fetch (eid per : String) (env : FetchEnv)
    (priorError : Option String)
    (he : (eid == "") = false) (hp : (per == "") = false)
    (hv : (validateSession env.session).verdict = false) :
    fetchOptimizedKPIs eid per env none priorError =
      ⟨none, some "Session expirée", false, some "/login", false,
        (validateSession env.session).storeAfter,
        (validateSession env.session).cookieCleared⟩ := by
  simp [fetchOptimizedKPIs, he, hp, hv]

/-- C6 witness: no stored session at all. -/
theorem c6_witness :
    fetchOptimizedKPIs "E1" "2024-01"
        ⟨⟨none, 0, .threw⟩, .ok none, .ok none, .ok none, .resolvedOk⟩ none none =
      ⟨none, some "Session expirée", false, some "/login", false, none, false⟩ :=
  c6_invalid_session_aborts_fetch "E1" "2024-01"
    ⟨⟨none, 0, .threw⟩, .ok none, .ok none, .ok none, .resolvedOk⟩ none rfl rfl rfl

/-- C7 (amended): with a valid session, a transport/query error in any one
of the three partition reads fails the whole fetch — `data` stays null and
the error names the failing partition (checked in order workforce,
financial, absence) — whereas if all three reads succeed, a partition that
merely has no row yields a null output field while the others populate and,
provided the awaited activity update does not reject, the error stays null.
(Unconditionally the error does not stay null: see the counterexample,
where a rejected activity-update promise sets it.) -/
theorem c7_partition_failure_policy (eid per : String) (env : FetchEnv)
    (priorError : Option String)
    (he : (eid == "") = false) (hp : (per == "") = false)
    (hv : (validateSession env.session).verdict = true) :
    (∀ m, env.workforceRes = .error m →
      fetchOptimizedKPIs eid per env none priorError =
        ⟨none, some ("Workforce data: " ++ m), false, none, true,
          (validateSession env.session).storeAfter,
          (validateSession env.session).cookieCleared⟩) ∧
    (∀ m w, env.workforceRes = .ok w → env.financialRes = .error m →
      fetchOptimizedKPIs eid per env none priorError =
        ⟨none, some ("Financial data: " ++ m), false, none, true,
          (validateSession env.session).storeAfter,
          (validateSession env.session).cookieCleared⟩) ∧
    (∀ m w f, env.workforceRes = .ok w → env.financialRes = .ok f →
      env.absenceRes = .error m →
      fetchOptimizedKPIs eid per env none priorError =
        ⟨none, some ("Absence data: " ++ m), false, none, true,
          (validateSession env.session).storeAfter,
          (validateSession env.session).cookieCleared⟩) ∧
    (∀ w f a, env.workforceRes = .ok w → env.financialRes = .ok f →
      env.absenceRes = .ok a → isRejectedActivity env.activity = false →
      fetchOptimizedKPIs eid per env none priorError =
        ⟨some ⟨w.map transformWorkforce, f.map transformFinancial,
            a.map transformAbsence⟩,
          none, false, none, true,
          (validateSession env.session).storeAfter,
          (validateSession env.session).cookieCleared⟩) := by
  refine ⟨?_, ?_, ?_, ?_⟩
  · intro m hw
    simp [fetchOptimizedKPIs, he, hp, hv, hw]
  · intro m w hw hf
    simp [fetchOptimizedKPIs, he, hp, hv, hw, hf]
  · intro m w f hw hf ha
    simp [fetchOptimizedKPIs, he, hp, hv, hw, hf, ha]
  · intro w f a hw hf ha hact
    cases hA : env.activity with
    | resolvedOk =>
      simp [fetchOptimizedKPIs, he, hp, hv, hw, hf, ha, hA]
    | resolvedErr m =>
      simp [fetchOptimizedKPIs, he, hp, hv, hw, hf, ha, hA]
    | rejected m =>
      rw [hA] at hact
      simp [isRejectedActivity] at hact

/-- Environment for the C7 witness: valid session, workforce read finds no
row, the other two find (all-default) rows, activity write resolves. -/
def c7Env : FetchEnv :=
  ⟨okSessionEnv, .ok none, .ok (some {}), .ok (some {}), .resolvedOk⟩

/-- Environment for the C7 counterexample: same reads — valid session,
no workforce row, rows for the other two partitions — but the awaited
activity-update promise rejects. -/
def c7RejEnv : FetchEnv :=
  ⟨okSessionEnv, .ok none, .ok (some {}), .ok (some {}), .rejected "boom"⟩

/-- C7 counterexample: in the exact scenario of the claim — the workforce
partition merely has no row, the other two populate normally, every read
succeeds — the error does not stay null: the rejected activity-update
promise lands in the catch after `setData`, so the fetch ends with the
populated data and `error = some "boom"`. -/
theorem c7_counterexample :
    (fetchOptimizedKPIs "E1" "2024-01" c7RejEnv none none).data =
      some ⟨none, some (transformFinancial {}), some (transformAbsence {})⟩ ∧
    (fetchOptimizedKPIs "E1" "2024-01" c7RejEnv none none).error = some "boom" := by
  with_unfolding_all exact ⟨rfl, rfl⟩

/-- C7 witness: the no-row workforce partition comes back null while the
other two populate and no error is raised. -/
theorem c7_witness :
    fetchOptimizedKPIs "E1" "2024-01" c7Env none none =
      ⟨some ⟨none, some (transformFinancial {}), some (transformAbsence {})⟩,
        none, false, none, true, some (.valid validCompanySession), false⟩ :=
  (c7_partition_failure_policy "E1" "2024-01" c7Env none rfl rfl rfl).2.2.2
    none (some {}) (some {}) rfl rfl rfl rfl

/-- Environment for the C8 scenario: entity `"E1"`, period `"2024-01"`,
workforce row with `etp_fin_mois: 12.5` (all other columns absent), no
payroll row, absence row with `taux_absenteisme: null` (all other columns
absent). -/
def c8Env : FetchEnv :=
  ⟨okSessionEnv, .ok (some { etp_fin_mois := .num 12.5 }), .ok none,
    .ok (some { taux_absenteisme := .null }), .resolvedOk⟩

/-- C8: `Number(x) || 0` sends `null`, `undefined`, `"abc"` and `NaN` to `0`
and `"42"` to `42`; and in the concrete scenario the output has
`workforce.etpTotal = 12.5`, `financials = null`,
`absences.tauxAbsenteisme = 0`, no error, and `isValid = true`. -/
theorem c8_numeric_coercion_and_scenario :
    numOr0 .null = 0 ∧ numOr0 .undefined = 0 ∧ numOr0 (.str "abc") = 0 ∧
    numOr0 .nan = 0 ∧ numOr0 (.str "42") = 42 ∧
    fetchOptimizedKPIs "E1" "2024-01" c8Env none none =
      ⟨some ⟨some ⟨12.5, 0, 0, 0, 0, 0, 0, 0, 0, 0⟩, none,
          some ⟨0, 0, 0, 0, 0, 0⟩⟩,
        none, false, none, true, some (.valid validCompanySession), false⟩ ∧
    returnedIsValid (fetchOptimizedKPIs "E1" "2024-01" c8Env none none) = true := by
  with_unfolding_all exact ⟨rfl, rfl, rfl, rfl, rfl, rfl, rfl⟩

/-- Replace the activity-write outcome of an environment. -/
def withActivity (env : FetchEnv) (a : ActivityOutcome) : FetchEnv :=
  { env with activity := a }

/-- Environment for the C9 counterexample: valid session, all three reads
succeed with rows. -/
def c9Env : FetchEnv :=
  ⟨okSessionEnv, .ok (some {}), .ok (some {}), .ok (some {}), .resolvedOk⟩

/-- C9 counterexample: the activity update sits on the awaited path — on an
otherwise fully successful fetch, a rejected activity-update promise ends
with `error = some "boom"` while the same fetch with a clean update ends
with `error = none`; `data` and `loading` agree. So the exposed state after
a successful fetch is not identical whether the update succeeds or fails,
refuting the claim as stated. -/
theorem c9_counterexample :
    (fetchOptimizedKPIs "E1" "2024-01" (withActivity c9Env (.rejected "boom"))
        none none).error = some "boom" ∧
    (fetchOptimizedKPIs "E1" "2024-01" (withActivity c9Env .resolvedOk)
        none none).error = none ∧
    (fetchOptimizedKPIs "E1" "2024-01" (withActivity c9Env (.rejected "boom"))
        none none).data =
      (fetchOptimizedKPIs "E1" "2024-01" (withActivity c9Env .resolvedOk)
        none none).data ∧
    (fetchOptimizedKPIs "E1" "2024-01" (withActivity c9Env (.rejected "boom"))
        none none).loading =
      (fetchOptimizedKPIs "E1" "2024-01" (withActivity c9Env .resolvedOk)
        none none).loading :=
  ⟨rfl, rfl, rfl, rfl⟩

/-- C9 amended: the activity update is awaited, but an error the capability
reports in-band (a resolved result carrying an error payload, the normal
failure mode of this client) is swallowed by `.then(() => {})` and the whole
fetch outcome is identical to a clean resolution, on every input. Only a
rejected promise changes the outcome (see the counterexample). -/
theorem c9_inband_activity_errors_swallowed (eid per : String) (env : FetchEnv)
    (m : String) (pd : Option OptimizedKPIData) (pe : Option String) :
    fetchOptimizedKPIs eid per (withActivity env (.resolvedErr m)) pd pe =
      fetchOptimizedKPIs eid per (withActivity env .resolvedOk) pd pe := rfl

/-- C10: an `expires_at` that is absent (`undefined`) or an unparseable
string makes the expiry comparison false, so the session is treated as not
expired: the hook local check clears nothing and proceeds to the RPC
verdict, and an admin cookie decoding to an object with no fields at all
passes the admin branch, which has no field-completeness check. -/
theorem c10_unparseable_expiry_not_expired (now : ℚ) (s : String)
    (rpc : RpcOutcome) (hs : parseDateStr s = none) :
    dateLtNow .undefined now = false ∧
    dateLtNow (.str s) now = false ∧
    adminGate (some (.valid emptySession)) now = MWResponse.next ∧
    validateSession ⟨some (.valid emptySession), now, rpc⟩ =
      ⟨rpcVerdict rpc, some (.valid emptySession), false⟩ := by
  refine ⟨rfl, ?_, rfl, rfl⟩
  simp [dateLtNow, jsDate, hs]

/-- C10 witness: the unparseable string `"garbage"` at time `0`, with a
rejecting RPC. -/
theorem c10_witness :
    parseDateStr "garbage" = none ∧
    dateLtNow .undefined 0 = false ∧
    dateLtNow (.str "garbage") 0 = false ∧
    adminGate (some (.valid emptySession)) 0 = MWResponse.next ∧
    validateSession ⟨some (.valid emptySession), 0, .threw⟩ =
      ⟨false, some (.valid emptySession), false⟩ := by
  have hg : parseDateStr "garbage" = none := by with_unfolding_all rfl
  have h := c10_unparseable_expiry_not_expired 0 "garbage" .threw hg
  exact ⟨hg, h.1, h.2.1, h.2.2.1, h.2.2.2⟩
